import Mathlib

/-!
Verification of the payroll application's salary computation and
persistence behaviour, embedded from `app/routes.py`.  Route handlers are
modelled as pure functions over an explicit store (a list of salary
records).  The salary computation engine `calculate_salary_components`
(imported from `utils`) and the professional-tax slab resolver are not in
the repository snapshot, so they are modelled from the specification; the
handlers, the persistence pattern and the staff-id assignment are
translated directly from `routes.py`.
-/

namespace Payroll

/-- Whether a year is a Gregorian leap year, as Python's
`calendar.monthrange` determines it. -/
def isLeapYear (year : Nat) : Bool :=
  (year % 4 == 0 && year % 100 != 0) || year % 400 == 0

/-- Number of days of a month, matching `calendar.monthrange(year, month)[1]`. -/
def days_in_month (month year : Nat) : Nat :=
  if month == 2 then (if isLeapYear year then 29 else 28)
  else if month == 4 || month == 6 || month == 9 || month == 11 then 30
  else 31

/-- Rounding a rational to two decimal places, half up: the stable
two-decimal policy the specification requires for the LOP amount. -/
def round2 (q : ℚ) : ℚ := (⌊q * 100 + 1 / 2⌋ : ℚ) / 100

/-- The seven named deduction values the deductions-and-reimbursements form
carries (`routes.py` lines 260-268): income tax, loan, advance, uniform,
cd, hostel, misc. -/
structure Deductions where
  it : ℚ
  loan : ℚ
  advance : ℚ
  uniform : ℚ
  cd : ℚ
  hostel : ℚ
  misc : ℚ
deriving DecidableEq

/-- Sum of the seven named deduction values. -/
def Deductions.total (d : Deductions) : ℚ :=
  d.it + d.loan + d.advance + d.uniform + d.cd + d.hostel + d.misc

/-- Statutory parameters of the computation engine.  The specification
leaves the exact EPF/ESI rates, the ESI eligibility ceiling and whether the
statutory base is gross or gross-minus-LOP open, so the model is
parameterised over them. -/
structure ComputeParams where
  rate_epf : ℚ
  rate_esi : ℚ
  esi_ceiling : ℚ
  base_minus_lop : Bool
deriving DecidableEq

/-- Itemized salary breakdown, the computation engine's output
(specification section 3, `SalaryBreakdown`). -/
structure SalaryBreakdown where
  gross_salary : ℚ
  lop_amount : ℚ
  epf : ℚ
  esi : ℚ
  it : ℚ
  loan : ℚ
  advance : ℚ
  uniform : ℚ
  cd : ℚ
  hostel : ℚ
  misc : ℚ
  total_deductions : ℚ
  total_reimbursements : ℚ
  net_salary : ℚ
deriving DecidableEq

/-- Modelled from the spec: `calculate_salary_components` lives in
`utils.py`, which is not part of the repository snapshot (only its caller
`routes.py` is).  Formulas follow specification section 4.1: LOP proration
with the two-decimal rounding policy, `EPF = rate_epf * base`,
`ESI = rate_esi * base` when `base ≤ esi_ceiling` else `0`,
`total_deductions = lop_amount + epf + esi + sum of named deductions`,
`total_reimbursements = sum of the reimbursement sequence`,
`net_salary = gross_salary - total_deductions + total_reimbursements`.
The engine is total: the spec lets it assume pre-validated inputs. -/
def calculate_salary_components (p : ComputeParams) (gross_salary lop_days : ℚ)
    (deductions : Deductions) (reimbursements : List ℚ) (month year : Nat) :
    SalaryBreakdown :=
  let dim : ℚ := (days_in_month month year : ℚ)
  let lop_amount := round2 (gross_salary / dim * lop_days)
  let base := if p.base_minus_lop then gross_salary - lop_amount else gross_salary
  let epf := p.rate_epf * base
  let esi := if base ≤ p.esi_ceiling then p.rate_esi * base else 0
  let total_deductions := lop_amount + epf + esi + deductions.total
  let total_reimbursements := reimbursements.sum
  { gross_salary := gross_salary
    lop_amount := lop_amount
    epf := epf
    esi := esi
    it := deductions.it
    loan := deductions.loan
    advance := deductions.advance
    uniform := deductions.uniform
    cd := deductions.cd
    hostel := deductions.hostel
    misc := deductions.misc
    total_deductions := total_deductions
    total_reimbursements := total_reimbursements
    net_salary := gross_salary - total_deductions + total_reimbursements }

/-- One professional-tax slab row (`models.ProfessionalTax`): the fields
`routes.py` lines 536-540 create. -/
structure ProfessionalTax where
  range_from : ℚ
  range_to : ℚ
  tax_amount : ℚ
deriving DecidableEq

/-- Whether a slab's range contains the amount, under the closed-bound
convention (`range_from ≤ amount ≤ range_to`), matching the spec's worked
example `find_slab 10000 = 0` on the slab `(0, 10000, 0)`. -/
def slabMatches (amount : ℚ) (s : ProfessionalTax) : Bool :=
  decide (s.range_from ≤ amount) && decide (amount ≤ s.range_to)

/-- Modelled from the spec: the slab resolver `find_slab` is not in the
repository snapshot; `routes.py` line 547 only queries the slabs in
ascending `range_from` order.  Per specification section 4.2 the first slab
whose range contains the amount is selected and its `tax_amount` returned;
`0` when no slab matches. -/
def find_slab (amount : ℚ) (slabs : List ProfessionalTax) : ℚ :=
  match slabs.find? (slabMatches amount) with
  | some s => s.tax_amount
  | none => 0

/-- Staff row: the fields of `models.Staff` that the embedded handlers
read.  `id` is the database primary key, `staff_id` the sequential
human-facing identifier assigned by `new_staff`; `deductions` is the
per-staff field captured at staff creation (`routes.py` line 120). -/
structure Staff where
  id : Nat
  staff_id : Nat
  base_salary : ℚ
  allowances : Option ℚ
  deductions : ℚ
deriving DecidableEq

/-- Salary record row (`models.SalaryRecord`): the fields `routes.py`
populates.  `rec_id` stands for the database primary key, so that record
identity (update-in-place versus fresh insert) is observable. -/
structure SalaryRecord where
  rec_id : Nat
  staff_id : Nat
  month : Nat
  year : Nat
  gross_salary : ℚ
  lop_days : ℚ
  lop_amount : ℚ
  epf : ℚ
  esi : ℚ
  it : ℚ
  loan : ℚ
  advance : ℚ
  uniform : ℚ
  cd : ℚ
  hostel : ℚ
  misc : ℚ
  total_deductions : ℚ
  total_reimbursements : ℚ
  net_salary : ℚ
deriving DecidableEq

/-- Whether a record belongs to the (staff, month, year) key, the filter
`SalaryRecord.query.filter_by(staff_id=..., month=..., year=...)` applies. -/
def isKey (sid m y : Nat) (r : SalaryRecord) : Bool :=
  r.staff_id == sid && r.month == m && r.year == y

/-- First stored record for the key, `filter_by(...).first()`. -/
def findRecord (store : List SalaryRecord) (sid m y : Nat) : Option SalaryRecord :=
  store.find? (isKey sid m y)

/-- In-place update of the first record satisfying `p`, the ORM mutation
`record.lop_days = lop_days` followed by a commit. -/
def updateFirst (p : SalaryRecord → Bool) (f : SalaryRecord → SalaryRecord) :
    List SalaryRecord → List SalaryRecord
  | [] => []
  | r :: rs => if p r then f r :: rs else r :: updateFirst p f rs

/-- Raw form data of a POST to the deductions-and-reimbursements page:
`none` stands for an absent form field (`request.form.get(name, 0)`), and
`reimbursement_amounts` for the parsed non-empty entries of
`reimbursement_amount[]`. -/
structure DRForm where
  income_tax : Option ℚ
  loan : Option ℚ
  advance : Option ℚ
  uniform : Option ℚ
  cd : Option ℚ
  hostel : Option ℚ
  misc : Option ℚ
  reimbursement_amounts : List ℚ
deriving DecidableEq

/-- The deductions dictionary `d_r_page` builds (`routes.py` lines
260-268): every absent field becomes `0`. -/
def drDeductions (form : DRForm) : Deductions :=
  { it := form.income_tax.getD 0
    loan := form.loan.getD 0
    advance := form.advance.getD 0
    uniform := form.uniform.getD 0
    cd := form.cd.getD 0
    hostel := form.hostel.getD 0
    misc := form.misc.getD 0 }

/-- LOP days `d_r_page` passes to the engine (`routes.py` line 257):
the stored record's value when one exists, else `0`. -/
def d_r_lop_days (store : List SalaryRecord) (sid m y : Nat) : ℚ :=
  match findRecord store sid m y with
  | some r => r.lop_days
  | none => 0

/-- Gross salary both handlers assemble (`routes.py` lines 178 and 259):
base salary plus allowances, allowances read as `0` when absent. -/
def grossOf (staff : Staff) : ℚ :=
  staff.base_salary + staff.allowances.getD 0

/-- Outcome of one POST to `d_r_page`: `ok` when both commits succeed;
`failEarly` when an exception is raised before the delete of the existing
record is committed (the rollback leaves the store untouched);
`failInsert` when the insert or its commit fails after the delete was
already committed (the rollback undoes only the uncommitted insert). -/
inductive DROutcome
  | ok
  | failEarly
  | failInsert
deriving DecidableEq

/-- Flash category the handler emits (`flash(..., 'success')` on the saved
path, `flash(..., 'error')` in the exception branch). -/
inductive Flash
  | success
  | error
deriving DecidableEq

/-- Observable result of one POST to `d_r_page`: the store after the
request, the flash category, the computed breakdown and the record the
handler builds from it (persisted only on the `ok` outcome). -/
structure DRResult where
  store : List SalaryRecord
  flash : Flash
  result : SalaryBreakdown
  record : SalaryRecord
deriving DecidableEq

/-- The fresh `SalaryRecord` `d_r_page` constructs (`routes.py` lines
290-309): breakdown fields from the engine's result, the seven named
values from the form's deductions dictionary. -/
def d_r_record (newId : Nat) (sid m y : Nat) (lop : ℚ) (deds : Deductions)
    (result : SalaryBreakdown) : SalaryRecord :=
  { rec_id := newId
    staff_id := sid
    month := m
    year := y
    gross_salary := result.gross_salary
    lop_days := lop
    lop_amount := result.lop_amount
    epf := result.epf
    esi := result.esi
    it := deds.it
    loan := deds.loan
    advance := deds.advance
    uniform := deds.uniform
    cd := deds.cd
    hostel := deds.hostel
    misc := deds.misc
    total_deductions := result.total_deductions
    total_reimbursements := result.total_reimbursements
    net_salary := result.net_salary }

/-- POST body of the deductions-and-reimbursements handler (`routes.py`
lines 253-328) for a resolved staff member and month: fetch the existing
record's LOP days (else `0`), compute the breakdown, delete the existing
record and commit, then insert the fresh record and commit.  `newId` is
the primary key the database would assign to the insert.  On `failEarly`
nothing was committed; on `failInsert` the delete commit already happened,
so only the uncommitted insert is rolled back. -/
def d_r_page (p : ComputeParams) (staff : Staff) (form : DRForm)
    (m y : Nat) (store : List SalaryRecord) (newId : Nat)
    (outcome : DROutcome) : DRResult :=
  let existing := findRecord store staff.id m y
  let lop := d_r_lop_days store staff.id m y
  let deds := drDeductions form
  let result := calculate_salary_components p (grossOf staff) lop deds
    form.reimbursement_amounts m y
  let record := d_r_record newId staff.id m y lop deds result
  let deleted := if existing.isSome then store.eraseP (isKey staff.id m y) else store
  match outcome with
  | .failEarly => ⟨store, .error, result, record⟩
  | .failInsert => ⟨deleted, .error, result, record⟩
  | .ok => ⟨deleted ++ [record], .success, result, record⟩

/-- Per-staff POST body of the LOP handler (`routes.py` lines 160-180) for
a submitted, non-empty LOP value `v`: when a record for the key exists its
`lop_days` field is assigned in place, otherwise a fresh record holding
only the key, the LOP days and the gross salary is inserted (`newId` is
the primary key the insert would receive; the remaining columns stay at
zero). -/
def lop_page_apply (staff : Staff) (v : ℚ) (m y : Nat) (newId : Nat)
    (store : List SalaryRecord) : List SalaryRecord :=
  match findRecord store staff.id m y with
  | some _ =>
      updateFirst (isKey staff.id m y) (fun r => { r with lop_days := v }) store
  | none =>
      store ++ [{ rec_id := newId, staff_id := staff.id, month := m, year := y
                  gross_salary := grossOf staff, lop_days := v
                  lop_amount := 0, epf := 0, esi := 0, it := 0, loan := 0
                  advance := 0, uniform := 0, cd := 0, hostel := 0, misc := 0
                  total_deductions := 0, total_reimbursements := 0
                  net_salary := 0 }]

/-- Form data of a new staff member: the salary-relevant fields `new_staff`
reads (`routes.py` lines 111-127). -/
structure StaffInfo where
  base_salary : ℚ
  allowances : Option ℚ
  deductions : ℚ
deriving DecidableEq

/-- Maximum of a list of naturals, `none` on the empty list: the staff id
`Staff.query.order_by(Staff.staff_id.desc()).first()` returns. -/
def maxId? : List Nat → Option Nat
  | [] => none
  | n :: rest =>
      match maxId? rest with
      | none => some n
      | some m => some (max n m)

/-- Next staff id `new_staff` assigns (`routes.py` lines 108-109): the
current maximum staff id plus one, or `1001` when no staff exists. -/
def next_staff_id (store : List Staff) : Nat :=
  match maxId? (store.map (fun s => s.staff_id)) with
  | none => 1001
  | some m => m + 1

/-- POST body of `new_staff` (`routes.py` lines 111-129): append a staff
row carrying the next sequential staff id (the database primary key `id`
is the autoincrement position). -/
def new_staff_step (store : List Staff) (info : StaffInfo) : List Staff :=
  store ++ [{ id := store.length + 1
              staff_id := next_staff_id store
              base_salary := info.base_salary
              allowances := info.allowances
              deductions := info.deductions }]

/-! Helper lemmas about the store operations. -/

/-- Erasing the first match from a list that holds at most one match leaves
a list with no match. -/
theorem filter_eraseP_of_length_le_one {α : Type} (p : α → Bool) :
    ∀ l : List α, (l.filter p).length ≤ 1 → (l.eraseP p).filter p = [] := by
  intro l
  induction l with
  | nil => intro _; rfl
  | cons a t ih =>
    intro h
    cases hpa : p a with
    | true =>
      rw [List.eraseP_cons, hpa, cond_true]
      rw [List.filter_cons_of_pos hpa] at h
      rw [List.length_cons] at h
      exact List.length_eq_zero.mp (by omega)
    | false =>
      rw [List.eraseP_cons, hpa, cond_false, List.filter_cons_of_neg (by simp [hpa]),
        ← List.filter_cons_of_neg (p := p) (a := a) (by simp [hpa]) (l := t.eraseP p)]
      rw [List.filter_cons_of_neg (by simp [hpa])] at h ⊢
      exact ih h

/-- Erasing a match from a list with no match changes nothing. -/
theorem eraseP_of_find?_none {α : Type} {p : α → Bool} :
    ∀ {l : List α}, l.find? p = none → l.eraseP p = l := by
  intro l
  induction l with
  | nil => intro _; rfl
  | cons a t ih =>
    intro h
    rw [List.find?_cons] at h
    cases hpa : p a with
    | true => rw [hpa] at h; exact absurd h (by simp)
    | false =>
      rw [hpa] at h
      rw [List.eraseP_cons, hpa, cond_false, ih h]

/-- Finding in a list with no match after appending a single element. -/
theorem find?_append_singleton_of_none {α : Type} {p : α → Bool} {l : List α}
    (h : l.find? p = none) (x : α) :
    (l ++ [x]).find? p = if p x then some x else none := by
  induction l with
  | nil => simp [List.find?_cons]; cases hpx : p x <;> simp [hpx]
  | cons a t ih =>
    rw [List.find?_cons] at h
    cases hpa : p a with
    | true => rw [hpa] at h; exact absurd h (by simp)
    | false =>
      rw [hpa] at h
      rw [List.cons_append, List.find?_cons, hpa]
      exact ih h

/-- In-place update of the first match is observed by the next lookup,
provided the update preserves the match. -/
theorem find?_updateFirst {p : SalaryRecord → Bool} {f : SalaryRecord → SalaryRecord}
    (hpf : ∀ r, p r = true → p (f r) = true) :
    ∀ {l : List SalaryRecord} {r : SalaryRecord}, l.find? p = some r →
      (updateFirst p f l).find? p = some (f r) := by
  intro l
  induction l with
  | nil => intro r h; exact absurd h (by simp)
  | cons a t ih =>
    intro r h
    rw [List.find?_cons] at h
    cases hpa : p a with
    | true =>
      rw [hpa] at h
      simp only [Option.some.injEq] at h
      subst h
      rw [updateFirst, if_pos hpa, List.find?_cons, hpf a hpa]
    | false =>
      rw [hpa] at h
      rw [updateFirst, if_neg (by simp [hpa]), List.find?_cons, hpa]
      exact ih h

/-- A record `d_r_page` builds for the key matches the key. -/
theorem isKey_d_r_record (newId sid m y : Nat) (lop : ℚ) (deds : Deductions)
    (result : SalaryBreakdown) :
    isKey sid m y (d_r_record newId sid m y lop deds result) = true := by
  simp [isKey, d_r_record]

/-- Updating `lop_days` preserves the record's key. -/
theorem isKey_set_lop_days (sid m y : Nat) (v : ℚ) (r : SalaryRecord)
    (h : isKey sid m y r = true) : isKey sid m y { r with lop_days := v } = true := h

/-! Projection lemmas for `d_r_page`. -/

/-- The breakdown `d_r_page` computes, for every outcome. -/
theorem d_r_page_result (p : ComputeParams) (staff : Staff) (form : DRForm)
    (m y : Nat) (store : List SalaryRecord) (newId : Nat) (outcome : DROutcome) :
    (d_r_page p staff form m y store newId outcome).result =
      calculate_salary_components p (grossOf staff) (d_r_lop_days store staff.id m y)
        (drDeductions form) form.reimbursement_amounts m y := by
  cases outcome <;> rfl

/-- The record `d_r_page` builds, for every outcome. -/
theorem d_r_page_record (p : ComputeParams) (staff : Staff) (form : DRForm)
    (m y : Nat) (store : List SalaryRecord) (newId : Nat) (outcome : DROutcome) :
    (d_r_page p staff form m y store newId outcome).record =
      d_r_record newId staff.id m y (d_r_lop_days store staff.id m y) (drDeductions form)
        ((d_r_page p staff form m y store newId outcome).result) := by
  cases outcome <;> rfl

/-- The persisted gross salary is the gross the handler assembled. -/
theorem d_r_page_record_gross (p : ComputeParams) (staff : Staff) (form : DRForm)
    (m y : Nat) (store : List SalaryRecord) (newId : Nat) (outcome : DROutcome) :
    (d_r_page p staff form m y store newId outcome).record.gross_salary =
      grossOf staff := by
  cases outcome <;> rfl

/-- The persisted LOP days are the ones fetched from the store. -/
theorem d_r_page_record_lop (p : ComputeParams) (staff : Staff) (form : DRForm)
    (m y : Nat) (store : List SalaryRecord) (newId : Nat) (outcome : DROutcome) :
    (d_r_page p staff form m y store newId outcome).record.lop_days =
      d_r_lop_days store staff.id m y := by
  cases outcome <;> rfl

/-- The persisted net salary is exactly the engine's net salary. -/
theorem d_r_page_record_net (p : ComputeParams) (staff : Staff) (form : DRForm)
    (m y : Nat) (store : List SalaryRecord) (newId : Nat) (outcome : DROutcome) :
    (d_r_page p staff form m y store newId outcome).record.net_salary =
      (d_r_page p staff form m y store newId outcome).result.net_salary := by
  cases outcome <;> rfl

/-- Store after a fully successful POST: the first record for the key is
removed and the freshly built record appended. -/
theorem d_r_page_store_ok (p : ComputeParams) (staff : Staff) (form : DRForm)
    (m y : Nat) (store : List SalaryRecord) (newId : Nat) :
    (d_r_page p staff form m y store newId .ok).store =
      store.eraseP (isKey staff.id m y) ++
        [(d_r_page p staff form m y store newId .ok).record] := by
  show (if (findRecord store staff.id m y).isSome then
      store.eraseP (isKey staff.id m y) else store) ++ _ = _
  cases hfind : findRecord store staff.id m y with
  | none => rw [eraseP_of_find?_none hfind]; rfl
  | some r => rfl

/-- Store after a POST whose insert fails once the delete was committed:
the first record for the key is removed and nothing replaces it. -/
theorem d_r_page_store_failInsert (p : ComputeParams) (staff : Staff) (form : DRForm)
    (m y : Nat) (store : List SalaryRecord) (newId : Nat) :
    (d_r_page p staff form m y store newId .failInsert).store =
      store.eraseP (isKey staff.id m y) := by
  show (if (findRecord store staff.id m y).isSome then
      store.eraseP (isKey staff.id m y) else store) = _
  cases hfind : findRecord store staff.id m y with
  | none => rw [eraseP_of_find?_none hfind]; rfl
  | some r => rfl

/-! Concrete inputs used by the closed witnesses and counterexamples. -/

/-- Sample staff member with allowances. -/
def stW : Staff := ⟨7, 1001, 3000, some 600, 50⟩

/-- Sample staff member with a negative base salary and no allowances,
accepted verbatim by `new_staff` (`float(...)` without a sign check). -/
def stNeg : Staff := ⟨8, 1002, -100, none, 0⟩

/-- Sample staff member with a small salary and no allowances. -/
def stSmall : Staff := ⟨9, 1003, 100, none, 0⟩

/-- Sample form: income tax 500, one reimbursement of 200. -/
def formW1 : DRForm := ⟨some 500, none, none, none, none, none, none, [200]⟩

/-- Sample form: income tax 100 and loan 40, no reimbursements. -/
def formW2 : DRForm := ⟨some 100, some 40, none, none, none, none, none, []⟩

/-- Sample form: only a misc deduction of 500. -/
def formMisc : DRForm := ⟨none, none, none, none, none, none, some 500, []⟩

/-- Empty form: every deduction field absent, no reimbursement rows. -/
def formE : DRForm := ⟨none, none, none, none, none, none, none, []⟩

/-- Engine parameters with zero statutory rates. -/
def pZ : ComputeParams := ⟨0, 0, 0, false⟩

/-- Pre-existing full salary record for staff 7, April 2024. -/
def recW : SalaryRecord :=
  ⟨1, 7, 4, 2024, 3600, 1, 120, 0, 0, 500, 0, 0, 0, 0, 0, 0, 620, 200, 3180⟩

/-! Claims. -/

/-- Claim C1: computing and persisting a breakdown twice for the same
(staff, month, year) key through the deductions-and-reimbursements handler
leaves exactly one persisted record for that key, and it is the record the
second (most recent) computation built — replace, not merge.  The
hypothesis is the database invariant that the key starts with at most one
record. -/
theorem C1_upsert_replaces (p : ComputeParams) (staff : Staff)
    (form1 form2 : DRForm) (m y : Nat) (store : List SalaryRecord)
    (id1 id2 : Nat)
    (h : (store.filter (isKey staff.id m y)).length ≤ 1) :
    ((d_r_page p staff form2 m y
        (d_r_page p staff form1 m y store id1 .ok).store id2 .ok).store.filter
      (isKey staff.id m y)) =
      [(d_r_page p staff form2 m y
          (d_r_page p staff form1 m y store id1 .ok).store id2 .ok).record] := by
  have h1 : (d_r_page p staff form1 m y store id1 .ok).store.filter
      (isKey staff.id m y) =
      [(d_r_page p staff form1 m y store id1 .ok).record] := by
    rw [d_r_page_store_ok, List.filter_append,
      filter_eraseP_of_length_le_one _ store h, List.nil_append,
      d_r_page_record, List.filter_cons_of_pos (isKey_d_r_record _ _ _ _ _ _ _),
      List.filter_nil]
  rw [d_r_page_store_ok, List.filter_append,
    filter_eraseP_of_length_le_one _ _ (by rw [h1]; simp), List.nil_append,
    d_r_page_record, List.filter_cons_of_pos (isKey_d_r_record _ _ _ _ _ _ _),
    List.filter_nil]

/-- Claim C1 witness: two successive POSTs for staff 7, April 2024, with
different forms, starting from the empty store. -/
theorem C1_upsert_replaces_witness :
    ((d_r_page pZ stW formW2 4 2024
        (d_r_page pZ stW formW1 4 2024 [] 1 .ok).store 2 .ok).store.filter
      (isKey stW.id 4 2024)) =
      [(d_r_page pZ stW formW2 4 2024
          (d_r_page pZ stW formW1 4 2024 [] 1 .ok).store 2 .ok).record] :=
  C1_upsert_replaces pZ stW formW1 formW2 4 2024 [] 1 2 (by decide)

/-- Claim C2 counterexample: with one record stored for the key, a failure
of the insert after the delete was committed leaves the store empty — the
pre-existing record is lost, so the persisted state is neither the new
breakdown nor unchanged. -/
theorem C2_counterexample :
    findRecord [recW] stW.id 4 2024 = some recW ∧
      (d_r_page pZ stW formW1 4 2024 [recW] 2 .failInsert).store = [] ∧
      (d_r_page pZ stW formW1 4 2024 [recW] 2 .failInsert).store ≠ [recW] := by
  refine ⟨by decide, by decide, by decide⟩

/-- Claim C2 (amended): the handler never persists a partial breakdown — a
fully successful POST appends exactly the complete freshly built record
after deleting the key's first record, and a failure before the delete
commit leaves the store untouched; but a failure of the insert after the
delete was committed removes the key's pre-existing record without
replacement (the rollback cannot undo the committed delete), so a
pre-existing record can be lost. -/
theorem C2_failure_effects (p : ComputeParams) (staff : Staff) (form : DRForm)
    (m y : Nat) (store : List SalaryRecord) (newId : Nat) :
    (d_r_page p staff form m y store newId .failEarly).store = store ∧
      (d_r_page p staff form m y store newId .failInsert).store =
        store.eraseP (isKey staff.id m y) ∧
      (d_r_page p staff form m y store newId .ok).store =
        store.eraseP (isKey staff.id m y) ++
          [(d_r_page p staff form m y store newId .ok).record] :=
  ⟨rfl, d_r_page_store_failInsert p staff form m y store newId,
    d_r_page_store_ok p staff form m y store newId⟩

/-- Claim C3: for every input, the engine's breakdown satisfies
`net_salary = gross_salary - total_deductions + total_reimbursements`
exactly, with `total_deductions` the sum of its itemized components
(LOP amount, EPF, ESI and the seven named deductions) and
`total_reimbursements` the sum of the reimbursement sequence. -/
theorem C3_net_salary_identity (p : ComputeParams) (gross lop : ℚ)
    (deds : Deductions) (reims : List ℚ) (m y : Nat) :
    (calculate_salary_components p gross lop deds reims m y).net_salary =
        (calculate_salary_components p gross lop deds reims m y).gross_salary -
          (calculate_salary_components p gross lop deds reims m y).total_deductions +
          (calculate_salary_components p gross lop deds reims m y).total_reimbursements ∧
      (calculate_salary_components p gross lop deds reims m y).total_deductions =
        (calculate_salary_components p gross lop deds reims m y).lop_amount +
          (calculate_salary_components p gross lop deds reims m y).epf +
          (calculate_salary_components p gross lop deds reims m y).esi +
          ((calculate_salary_components p gross lop deds reims m y).it +
            (calculate_salary_components p gross lop deds reims m y).loan +
            (calculate_salary_components p gross lop deds reims m y).advance +
            (calculate_salary_components p gross lop deds reims m y).uniform +
            (calculate_salary_components p gross lop deds reims m y).cd +
            (calculate_salary_components p gross lop deds reims m y).hostel +
            (calculate_salary_components p gross lop deds reims m y).misc) ∧
      (calculate_salary_components p gross lop deds reims m y).total_reimbursements =
        reims.sum ∧
      (calculate_salary_components p gross lop deds reims m y).gross_salary = gross :=
  ⟨rfl, rfl, rfl, rfl⟩

/-- Claim C6 counterexample: with gross 100 and a misc deduction of 500
the computed net salary is -400; the handler persists it verbatim and
still emits the success flash — the negative value is not flagged to the
operator (the flash category is the handler's only operator-facing
signal, and it does not depend on the sign of the net salary). -/
theorem C6_counterexample :
    (d_r_page pZ stSmall formMisc 4 2024 [] 1 .ok).record.net_salary = -400 ∧
      (d_r_page pZ stSmall formMisc 4 2024 [] 1 .ok).record.net_salary < 0 ∧
      (d_r_page pZ stSmall formMisc 4 2024 [] 1 .ok).flash = Flash.success := by
  have h : (d_r_page pZ stSmall formMisc 4 2024 [] 1 .ok).record.net_salary = -400 := by
    rw [d_r_page_record_net, d_r_page_result]
    norm_num [calculate_salary_components, round2, grossOf, d_r_lop_days,
      findRecord, drDeductions, Deductions.total, stSmall, formMisc, pZ,
      days_in_month, isLeapYear]
  exact ⟨h, by rw [h]; norm_num, rfl⟩

/-- Claim C6 (amended): the persisted net salary always equals the
engine's computed net salary exactly — never clamped or floored, also when
negative — but the calling layer does not flag a negative value: a
successful save emits the success flash category whatever the sign of the
net salary. -/
theorem C6_negative_net_persisted (p : ComputeParams) (staff : Staff)
    (form : DRForm) (m y : Nat) (store : List SalaryRecord) (newId : Nat) :
    (d_r_page p staff form m y store newId .ok).record.net_salary =
        (d_r_page p staff form m y store newId .ok).result.net_salary ∧
      (d_r_page p staff form m y store newId .ok).flash = Flash.success :=
  ⟨d_r_page_record_net p staff form m y store newId .ok, rfl⟩

/-- Claim C4 counterexample: with a full breakdown record stored for staff
7, April 2024, the LOP handler changes the stored breakdown by assigning
`lop_days` on the existing record — the record after the operation keeps
its primary key (1, not the fresh key 99) and differs from the old record,
so the change was an in-place mutation, not a freshly created record. -/
theorem C4_counterexample :
    lop_page_apply stW 2 4 2024 99 [recW] = [{ recW with lop_days := 2 }] ∧
      ({ recW with lop_days := 2 } : SalaryRecord).rec_id = recW.rec_id ∧
      ({ recW with lop_days := 2 } : SalaryRecord) ≠ recW := by
  refine ⟨by decide, rfl, by decide⟩

/-- Claim C4 (amended): the deductions-and-reimbursements handler does
supersede the breakdown with a freshly created record (its primary key is
the fresh `newId`), but the LOP handler does not: when a record for the
key exists, it mutates that record's `lop_days` field in place, keeping
the record's identity and every other field. -/
theorem C4_lop_updates_in_place (p : ComputeParams) (staff : Staff)
    (form : DRForm) (m y : Nat) (store : List SalaryRecord) (newId : Nat)
    (v : ℚ) (r₀ : SalaryRecord)
    (h : findRecord store staff.id m y = some r₀) :
    (d_r_page p staff form m y store newId .ok).record.rec_id = newId ∧
      findRecord (lop_page_apply staff v m y newId store) staff.id m y =
        some { r₀ with lop_days := v } ∧
      ({ r₀ with lop_days := v } : SalaryRecord).rec_id = r₀.rec_id := by
  refine ⟨rfl, ?_, rfl⟩
  unfold lop_page_apply
  rw [h]
  exact find?_updateFirst (fun r hr => isKey_set_lop_days _ _ _ v r hr) h

/-- Claim C4 witness: staff 7 with the stored record `recW`. -/
theorem C4_lop_updates_in_place_witness :
    (d_r_page pZ stW formW1 4 2024 [recW] 2 .ok).record.rec_id = 2 ∧
      findRecord (lop_page_apply stW 3 4 2024 2 [recW]) stW.id 4 2024 =
        some { recW with lop_days := 3 } ∧
      ({ recW with lop_days := 3 } : SalaryRecord).rec_id = recW.rec_id :=
  C4_lop_updates_in_place pZ stW formW1 4 2024 [recW] 2 3 recW (by decide)

/-- After the LOP handler runs, the key's first record carries exactly the
submitted LOP value, whatever that value is. -/
theorem find?_lop_page_apply (staff : Staff) (v : ℚ) (m y newId : Nat)
    (store : List SalaryRecord) :
    (findRecord (lop_page_apply staff v m y newId store) staff.id m y).map
      (fun r => r.lop_days) = some v := by
  cases h : findRecord store staff.id m y with
  | some r =>
    have e : findRecord (lop_page_apply staff v m y newId store) staff.id m y =
        some { r with lop_days := v } := by
      unfold lop_page_apply
      rw [h]
      exact find?_updateFirst (fun t ht => isKey_set_lop_days _ _ _ v t ht) h
    rw [e]
    rfl
  | none =>
    unfold lop_page_apply
    rw [h]
    show ((store ++ [_]).find? _).map _ = _
    rw [find?_append_singleton_of_none h, if_pos (by simp [isKey])]
    rfl

/-- Claim C5 counterexample: an out-of-range LOP value of -5 submitted to
the LOP handler is stored verbatim, and the deductions handler then passes
that -5 to the engine and persists it, together with the negative gross
salary -100 of a staff row whose base salary was captured without a sign
check — nothing is rejected or clamped. -/
theorem C5_counterexample :
    (findRecord (lop_page_apply stNeg (-5) 4 2024 1 []) stNeg.id 4 2024).map
        (fun r => r.lop_days) = some (-5) ∧
      (d_r_page pZ stNeg formW1 4 2024 (lop_page_apply stNeg (-5) 4 2024 1 [])
          2 .ok).record.lop_days = -5 ∧
      (d_r_page pZ stNeg formW1 4 2024 (lop_page_apply stNeg (-5) 4 2024 1 [])
          2 .ok).record.gross_salary = -100 := by
  refine ⟨by decide, ?_, ?_⟩
  · rw [d_r_page_record_lop]; decide
  · rw [d_r_page_record_gross]; norm_num [grossOf, stNeg, Option.getD]

/-- Claim C5 (amended): the route handlers perform no range validation.
The LOP handler stores any submitted numeric LOP value unchanged —
negative or exceeding the month's day count — and the
deductions-and-reimbursements handler passes the stored LOP days and the
gross salary `base_salary + allowances` to the engine and into the
persisted record unchanged, whatever their signs: out-of-range inputs are
neither rejected nor clamped. -/
theorem C5_no_validation (p : ComputeParams) (staff : Staff) (form : DRForm)
    (m y newId : Nat) (store : List SalaryRecord) (v : ℚ) :
    (findRecord (lop_page_apply staff v m y newId store) staff.id m y).map
        (fun r => r.lop_days) = some v ∧
      (d_r_page p staff form m y store newId .ok).record.lop_days =
        d_r_lop_days store staff.id m y ∧
      (d_r_page p staff form m y store newId .ok).record.gross_salary =
        staff.base_salary + staff.allowances.getD 0 :=
  ⟨find?_lop_page_apply staff v m y newId store,
    d_r_page_record_lop p staff form m y store newId .ok,
    d_r_page_record_gross p staff form m y store newId .ok⟩

/-- The resolver skips a slab whose range does not contain the amount. -/
theorem find_slab_cons_of_neg {amount : ℚ} {s : ProfessionalTax}
    {t : List ProfessionalTax} (hs : slabMatches amount s = false) :
    find_slab amount (s :: t) = find_slab amount t := by
  simp [find_slab, List.find?_cons, hs]

/-- The resolver returns the tax of a matching head slab. -/
theorem find_slab_cons_of_pos {amount : ℚ} {s : ProfessionalTax}
    {t : List ProfessionalTax} (hs : slabMatches amount s = true) :
    find_slab amount (s :: t) = s.tax_amount := by
  simp [find_slab, List.find?_cons, hs]

/-- Characterisation of the resolver on any slab list: either some index
holds the first matching slab — every earlier slab fails to match — and
the resolver returns that slab's tax amount, or no slab matches and the
resolver returns 0. -/
theorem find_slab_first_match (amount : ℚ) :
    ∀ slabs : List ProfessionalTax,
      (∃ i, ∃ hi : i < slabs.length,
          slabMatches amount (slabs.get ⟨i, hi⟩) = true ∧
          (∀ s ∈ slabs.take i, slabMatches amount s = false) ∧
          find_slab amount slabs = (slabs.get ⟨i, hi⟩).tax_amount) ∨
        ((∀ s ∈ slabs, slabMatches amount s = false) ∧
          find_slab amount slabs = 0) := by
  intro slabs
  induction slabs with
  | nil => right; exact ⟨by simp, rfl⟩
  | cons s t ih =>
    cases hs : slabMatches amount s with
    | true =>
      left
      refine ⟨0, by simp, by simpa using hs, by simp, ?_⟩
      simpa using find_slab_cons_of_pos hs
    | false =>
      rcases ih with ⟨i, hi, hm, hpre, heq⟩ | ⟨hall, heq⟩
      · left
        refine ⟨i + 1, by simpa using Nat.succ_lt_succ hi, by simpa using hm, ?_, ?_⟩
        · intro x hx
          rw [List.take_succ_cons] at hx
          rcases List.mem_cons.mp hx with rfl | hx
          · exact hs
          · exact hpre x hx
        · rw [find_slab_cons_of_neg hs, heq]; rfl
      · right
        refine ⟨?_, by rw [find_slab_cons_of_neg hs, heq]⟩
        intro x hx
        rcases List.mem_cons.mp hx with rfl | hx
        · exact hs
        · exact hall x hx

/-- Claim C7: on an ordered slab list the resolver selects the first slab
in ascending `range_from` order — the list order, by the ordering
hypothesis — whose range contains the amount (closed-bound convention
applied uniformly) and returns its tax amount; when no slab matches it
returns 0. -/
theorem C7_find_slab_first (amount : ℚ) (slabs : List ProfessionalTax)
    (_hsorted : slabs.Sorted fun a b => a.range_from ≤ b.range_from) :
    (∃ i, ∃ hi : i < slabs.length,
        slabMatches amount (slabs.get ⟨i, hi⟩) = true ∧
        (∀ s ∈ slabs.take i, slabMatches amount s = false) ∧
        find_slab amount slabs = (slabs.get ⟨i, hi⟩).tax_amount) ∨
      ((∀ s ∈ slabs, slabMatches amount s = false) ∧
        find_slab amount slabs = 0) :=
  find_slab_first_match amount slabs

/-- Sample ordered slab list from the specification's test vector. -/
def slabsW : List ProfessionalTax :=
  [⟨0, 10000, 0⟩, ⟨10001, 20000, 150⟩, ⟨20001, 1000000000, 200⟩]

/-- Claim C7 witness: the specification's slab table at amount 10001. -/
theorem C7_find_slab_first_witness :
    (∃ i, ∃ hi : i < slabsW.length,
        slabMatches 10001 (slabsW.get ⟨i, hi⟩) = true ∧
        (∀ s ∈ slabsW.take i, slabMatches 10001 s = false) ∧
        find_slab 10001 slabsW = (slabsW.get ⟨i, hi⟩).tax_amount) ∨
      ((∀ s ∈ slabsW, slabMatches 10001 s = false) ∧
        find_slab 10001 slabsW = 0) :=
  C7_find_slab_first 10001 slabsW (by decide)

/-- Claim C8 counterexample: a POST with every deduction field absent and
no reimbursement rows, for a staff member with no stored LOP record and no
allowances, still reaches the engine: `lop_days` is silently defaulted to
0 (there is no LOP field on this form and no stored record) and the
allowances are silently defaulted to 0 — zero defaults beyond the
deduction and reimbursement ones, so those are not the only silent
defaults applied. -/
theorem C8_counterexample :
    findRecord [] stSmall.id 4 2024 = none ∧
      stSmall.allowances = none ∧
      (d_r_page pZ stSmall formE 4 2024 [] 1 .ok).record.lop_days = 0 ∧
      (d_r_page pZ stSmall formE 4 2024 [] 1 .ok).record.gross_salary =
        stSmall.base_salary := by
  refine ⟨rfl, rfl, ?_, ?_⟩
  · rw [d_r_page_record_lop]; rfl
  · rw [d_r_page_record_gross]; norm_num [grossOf, stSmall, Option.getD]

/-- Claim C8 (amended): each of the seven named deduction values defaults
to 0 when its form field is absent, and an empty reimbursement sequence is
accepted and yields a total of 0; but these are not the only silent zero
defaults — `lop_days` silently defaults to 0 when no record exists for the
key, and allowances default to 0 when absent. -/
theorem C8_zero_defaults (p : ComputeParams) (staff : Staff) (form : DRForm)
    (m y newId : Nat) (store : List SalaryRecord)
    (h1 : form.income_tax = none) (h2 : form.loan = none)
    (h3 : form.advance = none) (h4 : form.uniform = none)
    (h5 : form.cd = none) (h6 : form.hostel = none) (h7 : form.misc = none)
    (h8 : form.reimbursement_amounts = [])
    (h9 : findRecord store staff.id m y = none)
    (h10 : staff.allowances = none) :
    drDeductions form = ⟨0, 0, 0, 0, 0, 0, 0⟩ ∧
      (d_r_page p staff form m y store newId .ok).record.total_reimbursements = 0 ∧
      (d_r_page p staff form m y store newId .ok).record.lop_days = 0 ∧
      (d_r_page p staff form m y store newId .ok).record.gross_salary =
        staff.base_salary := by
  refine ⟨?_, ?_, ?_, ?_⟩
  · simp [drDeductions, h1, h2, h3, h4, h5, h6, h7]
  · have e : (d_r_page p staff form m y store newId .ok).record.total_reimbursements =
        form.reimbursement_amounts.sum := rfl
    rw [e, h8]; rfl
  · rw [d_r_page_record_lop]; simp [d_r_lop_days, h9]
  · rw [d_r_page_record_gross]; simp [grossOf, h10]

/-- Claim C8 witness: the empty form against the empty store. -/
theorem C8_zero_defaults_witness :
    drDeductions formE = ⟨0, 0, 0, 0, 0, 0, 0⟩ ∧
      (d_r_page pZ stSmall formE 4 2024 [] 1 .ok).record.total_reimbursements = 0 ∧
      (d_r_page pZ stSmall formE 4 2024 [] 1 .ok).record.lop_days = 0 ∧
      (d_r_page pZ stSmall formE 4 2024 [] 1 .ok).record.gross_salary =
        stSmall.base_salary :=
  C8_zero_defaults pZ stSmall formE 4 2024 1 [] rfl rfl rfl rfl rfl rfl rfl rfl
    rfl rfl

/-- Claim C9: the gross salary the deductions handler passes to the engine
and persists, and the gross salary a fresh LOP record stores, both equal
`base_salary + allowances` (allowances read as 0 when absent); and the
per-staff `deductions` field captured at staff creation never enters
either handler — changing it changes neither handler's output. -/
theorem C9_gross_base_plus_allowances (p : ComputeParams) (staff : Staff)
    (form : DRForm) (m y newId : Nat) (store : List SalaryRecord) (v d : ℚ)
    (h : findRecord store staff.id m y = none) :
    (d_r_page p staff form m y store newId .ok).record.gross_salary =
        staff.base_salary + staff.allowances.getD 0 ∧
      (findRecord (lop_page_apply staff v m y newId store) staff.id m y).map
          (fun r => r.gross_salary) =
        some (staff.base_salary + staff.allowances.getD 0) ∧
      d_r_page p { staff with deductions := d } form m y store newId .ok =
        d_r_page p staff form m y store newId .ok ∧
      lop_page_apply { staff with deductions := d } v m y newId store =
        lop_page_apply staff v m y newId store := by
  refine ⟨d_r_page_record_gross p staff form m y store newId .ok, ?_, rfl, rfl⟩
  unfold lop_page_apply
  rw [h]
  show ((store ++ [_]).find? _).map _ = _
  rw [find?_append_singleton_of_none h, if_pos (by simp [isKey])]
  rfl

/-- Claim C9 witness: staff 7 against the empty store, `deductions`
altered from 50 to 99. -/
theorem C9_gross_base_plus_allowances_witness :
    (d_r_page pZ stW formW1 4 2024 [] 1 .ok).record.gross_salary =
        stW.base_salary + stW.allowances.getD 0 ∧
      (findRecord (lop_page_apply stW 1 4 2024 1 []) stW.id 4 2024).map
          (fun r => r.gross_salary) =
        some (stW.base_salary + stW.allowances.getD 0) ∧
      d_r_page pZ { stW with deductions := 99 } formW1 4 2024 [] 1 .ok =
        d_r_page pZ stW formW1 4 2024 [] 1 .ok ∧
      lop_page_apply { stW with deductions := 99 } 1 4 2024 1 [] =
        lop_page_apply stW 1 4 2024 1 [] :=
  C9_gross_base_plus_allowances pZ stW formW1 4 2024 1 [] 1 99 rfl

/-- Appending one id to the list shifts the maximum as expected. -/
theorem maxId?_append_singleton :
    ∀ (l : List Nat) (x : Nat),
      maxId? (l ++ [x]) =
        some (match maxId? l with | none => x | some m => max m x) := by
  intro l x
  induction l with
  | nil => rfl
  | cons n rest ih =>
    rw [List.cons_append]
    show (match maxId? (rest ++ [x]) with
      | none => some n | some m => some (max n m)) = _
    rw [ih]
    cases h : maxId? rest with
    | none =>
      show some (max n x) = some (match maxId? (n :: rest) with
        | none => x | some m => max m x)
      show some (max n x) = some (match (match maxId? rest with
        | none => some n | some m => some (max n m)) with
        | none => x | some m => max m x)
      rw [h]
    | some m =>
      show some (max n (max m x)) = some (match (match maxId? rest with
        | none => some n | some m => some (max n m)) with
        | none => x | some m => max m x)
      rw [h, ← Nat.max_assoc]

/-- Maximum of the id range starting at 1001. -/
theorem maxId?_range'_succ :
    ∀ k : Nat, maxId? (List.range' 1001 (k + 1)) = some (1001 + k) := by
  intro k
  induction k with
  | zero => rfl
  | succ k ih =>
    rw [List.range'_concat 1001 (k + 1), maxId?_append_singleton, ih]
    show some (max (1001 + k) (1001 + 1 * (k + 1))) = some (1001 + (k + 1))
    rw [Nat.one_mul, Nat.max_eq_right (by omega : 1001 + k ≤ 1001 + (k + 1))]

/-- The next staff id over a store whose ids are the range from 1001. -/
theorem next_staff_id_of_ids (store : List Staff) (k : Nat)
    (h : store.map (fun s => s.staff_id) = List.range' 1001 k) :
    next_staff_id store = 1001 + k := by
  cases k with
  | zero =>
    have e : store.map (fun s => s.staff_id) = [] := by rw [h]; rfl
    unfold next_staff_id
    rw [e]
    rfl
  | succ k =>
    unfold next_staff_id
    rw [h, maxId?_range'_succ]
    show 1001 + k + 1 = 1001 + (k + 1)
    omega

/-- Folding staff creations over a store whose ids are the range from
1001 extends the range one id at a time. -/
theorem foldl_new_staff_ids :
    ∀ (infos : List StaffInfo) (store : List Staff) (k : Nat),
      store.map (fun s => s.staff_id) = List.range' 1001 k →
      (infos.foldl new_staff_step store).map (fun s => s.staff_id) =
        List.range' 1001 (k + infos.length) := by
  intro infos
  induction infos with
  | nil =>
    intro store k h
    simpa using h
  | cons i t ih =>
    intro store k h
    show (t.foldl new_staff_step (new_staff_step store i)).map _ = _
    have hstep : (new_staff_step store i).map (fun s => s.staff_id) =
        List.range' 1001 (k + 1) := by
      unfold new_staff_step
      rw [List.map_append, h]
      show List.range' 1001 k ++ [next_staff_id store] = _
      rw [next_staff_id_of_ids store k h, List.range'_concat 1001 k, Nat.one_mul]
    rw [ih (new_staff_step store i) (k + 1) hstep]
    have : k + 1 + t.length = k + (t.length + 1) := by omega
    rw [this]
    rfl

/-- Claim C10: starting from an empty staff table, the first assigned
staff id is 1001 and each creation assigns the current maximum plus one,
so after any sequence of creations the staff ids are exactly
1001, 1002, ... in creation order — unique and strictly increasing. -/
theorem C10_sequential_staff_ids (infos : List StaffInfo) :
    next_staff_id [] = 1001 ∧
      (infos.foldl new_staff_step []).map (fun s => s.staff_id) =
        List.range' 1001 infos.length ∧
      ((infos.foldl new_staff_step []).map (fun s => s.staff_id)).Pairwise
        (· < ·) := by
  have hids := foldl_new_staff_ids infos [] 0 rfl
  rw [Nat.zero_add] at hids
  exact ⟨rfl, hids, by
    rw [hids]; exact List.pairwise_lt_range' 1001 infos.length⟩

end Payroll
